import Mathlib

/-!
Verification model of `scripts/Trade_Analyser/trade_analyser.py`.

The program is a single linear pipeline `generate_analysis(input_csv, output_html)`:
load CSV -> filter rows -> compute metrics -> weekly aggregation -> render HTML.
We embed it shallowly: a CSV table is a `List Row`, pandas timestamps are `Date`
records (only the calendar date matters to the script: `.dt.year` and
`.dt.isocalendar().week`), floats are `ℚ` (with `Option ℚ` for the
`np.inf` profit factor, `none` standing for positive infinity), and the
side-effecting run is a total function from a `LoadResult` (the possible
outcomes of the I/O prefix) to a `RunOutcome` recording the printed message and
the file content written, if any.
-/

/-- Date part of a pandas timestamp, proleptic Gregorian calendar. -/
structure Date where
  year : Nat
  month : Nat
  day : Nat
deriving DecidableEq, Repr

/-- Row of the input CSV as the script reads it: `Symbol` is a string,
`Profit` and `Commission` are nullable numbers (`None` = null/NaN), and
`Update Time` is a nullable date (`none` models an unparseable value that
would make `pd.to_datetime` raise). -/
structure Row where
  symbol : String
  profit : Option ℚ
  commission : Option ℚ
  updateTime : Option Date
deriving DecidableEq, Repr

/-- Leap year test of the Gregorian calendar. -/
def isLeap (y : Nat) : Bool :=
  (y % 4 == 0 && y % 100 != 0) || y % 400 == 0

/-- Length of month `m` in year `y`. -/
def daysInMonth (y m : Nat) : Nat :=
  if m == 2 then (if isLeap y then 29 else 28)
  else if m == 4 || m == 6 || m == 9 || m == 11 then 30
  else 31

/-- Days in year `y` strictly before month `m`. -/
def daysBeforeMonth (y m : Nat) : Nat :=
  (List.range (m - 1)).foldl (fun acc i => acc + daysInMonth y (i + 1)) 0

/-- Proleptic Gregorian ordinal of a date; day 1 is January 1 of year 1
(a Monday), as in CPython `datetime.toordinal`, which pandas timestamps
agree with on calendar dates. -/
def toOrdinal (d : Date) : Nat :=
  365 * (d.year - 1) + (d.year - 1) / 4 - (d.year - 1) / 100 + (d.year - 1) / 400
    + daysBeforeMonth d.year d.month + d.day

/-- Ordinal of the Monday starting ISO week 1 of ISO year `y` (the week
containing the first Thursday of `y`); the helper behind `isocalendar`. -/
def week1Monday (y : Nat) : Nat :=
  let jan1 := toOrdinal ⟨y, 1, 1⟩
  let dow := (jan1 - 1) % 7
  if dow > 3 then jan1 - dow + 7 else jan1 - dow

/-- ISO-8601 calendar pair `(iso year, iso week)` of a date: the semantics of
`Series.dt.isocalendar()` in pandas (identical to `datetime.isocalendar`):
weeks start Monday and week 1 of a year is the week containing the first
Thursday of that year. -/
def isocalendar (d : Date) : Nat × Nat :=
  let today := toOrdinal d
  if today < week1Monday d.year then
    (d.year - 1, (today - week1Monday (d.year - 1)) / 7 + 1)
  else if today ≥ week1Monday (d.year + 1) then
    (d.year + 1, (today - week1Monday (d.year + 1)) / 7 + 1)
  else
    (d.year, (today - week1Monday d.year) / 7 + 1)

/-- ISO-8601 week number of a date: `.dt.isocalendar().week` in the script. -/
def isoWeek (d : Date) : Nat := (isocalendar d).2

/-- ISO-8601 calendar year of a date: the `year` column of `isocalendar`
(NOT used by the script, which takes `.dt.year` instead). -/
def isoYear (d : Date) : Nat := (isocalendar d).1

/-- Filter stage, lines 18-19 of the script:
`trades = df[df['Profit'].notnull()].copy()` then
`trades = trades[trades['Symbol'] != 'XAGUSD']`.
Row order of the data frame is preserved. -/
def filterRows (df : List Row) : List Row :=
  (df.filter (fun r => r.profit.isSome)).filter (fun r => r.symbol ≠ "XAGUSD")

/-- Net profit of a retained row: `trades['Profit'] + trades['Commission']`
after `trades['Commission'].fillna(0)`; on the filtered set `Profit` is
never null, so the default in `getD` is never consulted there. -/
def netProfit (r : Row) : ℚ := r.profit.getD 0 + r.commission.getD 0

/-- Date of a retained row; total by defaulting, the pipeline only reaches the
date-dependent stages when every retained row has a parseable `Update Time`. -/
def dateOf (r : Row) : Date := r.updateTime.getD ⟨1, 1, 1⟩

/-- Check modelling `pd.to_datetime(trades['Update Time'])` succeeding:
every retained row carries a parseable date. -/
def datesOk (ts : List Row) : Bool := ts.all (fun r => r.updateTime.isSome)

/-- Code line `total_trades = len(trades)`. -/
def total_trades (ts : List Row) : Nat := ts.length

/-- Code line `avg_pl = trades['Net Profit'].mean()`. -/
def avg_pl (ts : List Row) : ℚ := ((ts.map netProfit).sum) / (ts.length : ℚ)

/-- Code line `wins = trades[trades['Net Profit'] > 0]`. -/
def wins (ts : List Row) : List Row := ts.filter (fun r => 0 < netProfit r)

/-- Code line `losses = trades[trades['Net Profit'] <= 0]`. -/
def losses (ts : List Row) : List Row := ts.filter (fun r => netProfit r ≤ 0)

/-- Code line `winrate = (len(wins) / total_trades * 100) if total_trades > 0 else 0`. -/
def winrate (ts : List Row) : ℚ :=
  if 0 < ts.length then ((wins ts).length : ℚ) / (ts.length : ℚ) * 100 else 0

/-- Code line `gross_profit = wins['Net Profit'].sum()`. -/
def gross_profit (ts : List Row) : ℚ := ((wins ts).map netProfit).sum

/-- Code line `gross_loss = abs(losses['Net Profit'].sum())`. -/
def gross_loss (ts : List Row) : ℚ := |((losses ts).map netProfit).sum|

/-- Code line `profit_factor = gross_profit / gross_loss if gross_loss != 0 else np.inf`;
`none` models `np.inf`. -/
def profit_factor (ts : List Row) : Option ℚ :=
  if gross_loss ts ≠ 0 then some (gross_profit ts / gross_loss ts) else none

/-- Code line `max_profit = trades['Net Profit'].max()` (pipeline reaches it
only on a non-empty set, where the `getD` default is never consulted). -/
def max_profit (ts : List Row) : ℚ := ((ts.map netProfit).max?).getD 0

/-- Code line `max_loss = trades['Net Profit'].min()`. -/
def max_loss (ts : List Row) : ℚ := ((ts.map netProfit).min?).getD 0

/-- Grouping key the script actually builds in lines 45-46:
`trades['Year'] = trades['Update Time'].dt.year` (calendar year) and
`trades['Week'] = trades['Update Time'].dt.isocalendar().week` (ISO week). -/
def keyOf (r : Row) : Nat × Nat := ((dateOf r).year, isoWeek (dateOf r))

/-- Grouping key as the specification words it: ISO calendar year paired with
ISO week number. Stated from the spec for comparison with `keyOf`. -/
def specKeyOf (r : Row) : Nat × Nat := (isoYear (dateOf r), isoWeek (dateOf r))

/-- Row of `weekly_stats`: `Year`, `Week`, `Trade_Count`, `Weekly_Profit`. -/
structure WeeklyRow where
  year : Nat
  week : Nat
  tradeCount : Nat
  weeklyProfit : ℚ
deriving DecidableEq, Repr

/-- Distinct group keys occurring in the trade set, in first-occurrence order
(the grouping of `trades.groupby(['Year', 'Week'])`). -/
def weeklyKeys (ts : List Row) : List (Nat × Nat) := (ts.map keyOf).dedup

/-- Descending lexicographic comparison used by
`sort_values(['Year', 'Week'], ascending=False)`. -/
def keyDescLe (a b : Nat × Nat) : Bool :=
  b.1 < a.1 || (a.1 == b.1 && b.2 ≤ a.2)

/-- Insertion step of the key sort. -/
def insertKeyDesc (k : Nat × Nat) : List (Nat × Nat) → List (Nat × Nat)
  | [] => [k]
  | j :: rest => if keyDescLe k j then k :: j :: rest else j :: insertKeyDesc k rest

/-- Sort of the group keys, descending by `(Year, Week)`; on the duplicate-free
key list this realises `sort_values(['Year', 'Week'], ascending=False)`. -/
def sortKeysDesc : List (Nat × Nat) → List (Nat × Nat)
  | [] => []
  | k :: rest => insertKeyDesc k (sortKeysDesc rest)

/-- Weekly aggregation, lines 47-50 of the script: group by `(Year, Week)`,
aggregate `Trade_Count = count` and `Weekly_Profit = sum` of `Net Profit`
per group, then sort descending by `(Year, Week)`. -/
def weekly_stats (ts : List Row) : List WeeklyRow :=
  (sortKeysDesc (weeklyKeys ts)).map (fun k =>
    { year := k.1
      week := k.2
      tradeCount := (ts.filter (fun r => keyOf r = k)).length
      weeklyProfit := ((ts.filter (fun r => keyOf r = k)).map netProfit).sum })

/-- Round a rational to the nearest integer, ties to even: the rounding of
Python `format(x, '.2f')` at the scaled value. -/
def roundHalfEven (q : ℚ) : Int :=
  let f := Int.floor q
  let frac := q - (f : ℚ)
  if frac < 1 / 2 then f
  else if 1 / 2 < frac then f + 1
  else if f % 2 = 0 then f else f + 1

/-- Two-decimal fixed formatting of a finite value: the `:.2f` conversion on
a finite float. -/
def fmt2 (q : ℚ) : String :=
  let c := roundHalfEven (q * 100)
  let sign := if c < 0 then "-" else ""
  let n := c.natAbs
  sign ++ toString (n / 100) ++ "." ++ (if n % 100 < 10 then "0" else "") ++ toString (n % 100)

/-- Rendering `{profit_factor:.2f}` where `profit_factor` may be `np.inf`:
Python string-formats the infinite float to the literal string "inf"
without raising. -/
def fmtPF : Option ℚ → String
  | none => "inf"
  | some q => fmt2 q

/-- Code `os.path.basename(input_csv)` for the report heading. -/
def basename (p : String) : String := ((p.splitOn "/").getLast?).getD p

/-- Class attribute on the `max_profit` summary cell. The template literal at
line 91 is `<td class="win">${max_profit:.2f}</td>`: the class is the fixed
string "win", whatever the value. -/
def max_profit_class (maxP : ℚ) : String := "win"

/-- Class attribute on the `max_loss` summary cell. The template literal at
line 92 is `<td class="loss">${max_loss:.2f}</td>`: the class is the fixed
string "loss", whatever the value. -/
def max_loss_class (maxL : ℚ) : String := "loss"

/-- Summary-table row for the highest profitable trade, line 91 of the template. -/
def summary_profit_row (maxP : ℚ) : String :=
  "<tr><td>Highest Profitable Trade</td><td class=\"" ++ max_profit_class maxP
    ++ "\">$" ++ fmt2 maxP ++ "</td></tr>"

/-- Summary-table row for the highest loss, line 92 of the template. -/
def summary_loss_row (maxL : ℚ) : String :=
  "<tr><td>Highest Loss</td><td class=\"" ++ max_loss_class maxL
    ++ "\">$" ++ fmt2 maxL ++ "</td></tr>"

/-- Class chosen for a weekly card, line 101 of the template:
`{'win' if r.Weekly_Profit >= 0 else 'loss'}`. -/
def weekBoxClass (weeklyProfit : ℚ) : String :=
  if 0 ≤ weeklyProfit then "win" else "loss"

/-- One weekly calendar card, lines 99-103 of the template. -/
def weekBox (b : WeeklyRow) : String :=
  "<div class=\"week-box\"><strong>Week " ++ toString b.week ++ ", "
    ++ toString b.year ++ "</strong><br>Trades: " ++ toString b.tradeCount
    ++ "<br>Net P&L: <span class=\"" ++ weekBoxClass b.weeklyProfit ++ "\">$"
    ++ fmt2 b.weeklyProfit ++ "</span></div>"

/-- Style rules of the template that bind the class names; the remaining
static CSS and layout text carries no computed value and is elided. -/
def styleText : String :=
  ".win \x7b color: #2f855a; font-weight: bold; \x7d .loss \x7b color: #c53030; font-weight: bold; \x7d"

/-- The rendered `html_content` f-string: document skeleton with every
computed slot filled exactly as in lines 53-112 of the script. -/
def buildHtml (input_csv : String) (ts : List Row) : String :=
  "<!DOCTYPE html><html lang=\"en\"><head><meta charset=\"UTF-8\">"
    ++ "<title>Trading Performance Report</title><style>" ++ styleText
    ++ "</style></head><body><div class=\"container\">"
    ++ "<h1>Execution Analysis: " ++ basename input_csv ++ "</h1>"
    ++ "<div class=\"kpi-wrapper\">"
    ++ "<div class=\"kpi-card\"><h3>Trades Executed</h3><p>" ++ toString (total_trades ts) ++ "</p></div>"
    ++ "<div class=\"kpi-card\"><h3>Average P&L</h3><p>$" ++ fmt2 (avg_pl ts) ++ "</p></div>"
    ++ "<div class=\"kpi-card\"><h3>Winrate</h3><p>" ++ fmt2 (winrate ts) ++ "%</p></div>"
    ++ "<div class=\"kpi-card\"><h3>Profit Factor</h3><p>" ++ fmtPF (profit_factor ts) ++ "</p></div>"
    ++ "</div><h2>Summary Statistics</h2><table>"
    ++ "<tr><td>Total Number of Trades</td><td>" ++ toString (total_trades ts) ++ "</td></tr>"
    ++ summary_profit_row (max_profit ts)
    ++ summary_loss_row (max_loss ts)
    ++ "</table><h2>Weekly Execution Calendar</h2><div class=\"calendar\">"
    ++ String.join ((weekly_stats ts).map weekBox)
    ++ "</div></div></body></html>"

/-- Possible outcomes of the I/O prefix of a run: the input path does not
exist (`os.path.exists` is false), `pd.read_csv` raises (caught by the
top-level handler), or a table is materialised. -/
inductive LoadResult where
  | fileMissing
  | parseError (msg : String)
  | table (df : List Row)
deriving DecidableEq, Repr

/-- Observable outcome of one run: the message printed to standard output and
the content written to the output path (`none` when no file is written). -/
structure RunOutcome where
  message : String
  written : Option String
deriving DecidableEq, Repr

/-- The `generate_analysis(input_csv, output_html)` pipeline as a total
function of the load outcome. Branches in source order: missing file
(lines 10-12), read failure (caught at line 115), empty filtered set
(lines 21-23), date-parse failure at `pd.to_datetime` (line 26, caught at
line 115), and the success path that renders and writes (lines 53-112). -/
def generate_analysis (input_csv output_html : String) (input : LoadResult) : RunOutcome :=
  match input with
  | .fileMissing =>
      { message := "Error: File \x27" ++ input_csv ++ "\x27 not found.", written := none }
  | .parseError e =>
      { message := "An unexpected error occurred: " ++ e, written := none }
  | .table df =>
      let trades := filterRows df
      if trades = [] then
        { message := "No valid trade data found after filtering.", written := none }
      else if datesOk trades then
        { message := "Analysis complete. Dashboard saved to: " ++ output_html
          written := some (buildHtml input_csv trades) }
      else
        { message := "An unexpected error occurred: unparseable Update Time"
          written := none }

/-! ### Helper lemmas -/

/-- Sum of a mapped list splits across a filter and its complement. -/
lemma sum_filter_split {M : Type} [AddCommMonoid M] (f : Row → M) (p : Row → Bool) :
    ∀ ts : List Row,
      ((ts.filter p).map f).sum + ((ts.filter (fun r => !(p r))).map f).sum
        = (ts.map f).sum := by
  intro ts
  induction ts with
  | nil => simp
  | cons t ts ih =>
    cases h : p t with
    | true =>
      simp only [List.filter_cons, h, Bool.not_true, Bool.false_eq_true, ite_true, ite_false,
        if_true, if_false, List.map_cons, List.sum_cons]
      rw [add_assoc, ih]
    | false =>
      simp only [List.filter_cons, h, Bool.not_false, Bool.false_eq_true, ite_true, ite_false,
        if_true, if_false, List.map_cons, List.sum_cons]
      rw [add_left_comm, ih]

/-- Filtering for one key commutes past removing a different key. -/
lemma filter_key_of_ne {K : Type} [DecidableEq K] (key : Row → K) (k j : K) (hjk : j ≠ k) :
    ∀ ts : List Row,
      (ts.filter (fun r => !(decide (key r = k)))).filter (fun r => key r = j)
        = ts.filter (fun r => key r = j) := by
  intro ts
  induction ts with
  | nil => rfl
  | cons t ts ih =>
    by_cases hk : key t = k
    · have hj : ¬ key t = j := fun h => hjk (h ▸ hk ▸ rfl)
      simp [List.filter_cons, hk, hj, ih, hjk, Ne.symm hjk]
    · by_cases hj : key t = j
      · simp [List.filter_cons, hk, hj, ih, hjk, Ne.symm hjk]
      · simp [List.filter_cons, hk, hj, ih, hjk, Ne.symm hjk]

/-- Summing a quantity over the fibers of a duplicate-free covering key list
recovers the sum over the whole list. -/
lemma sum_fiberwise {K M : Type} [DecidableEq K] [AddCommMonoid M]
    (key : Row → K) (f : Row → M) :
    ∀ (ks : List K) (ts : List Row), ks.Nodup → (∀ t ∈ ts, key t ∈ ks) →
      (ks.map (fun k => ((ts.filter (fun r => key r = k)).map f).sum)).sum
        = (ts.map f).sum := by
  intro ks
  induction ks with
  | nil =>
    intro ts _ hcov
    cases ts with
    | nil => simp
    | cons t ts => exact absurd (hcov t (List.mem_cons_self t ts)) (List.not_mem_nil _)
  | cons k ks ih =>
    intro ts hnd hcov
    have hk_not : k ∉ ks := (List.nodup_cons.mp hnd).1
    have hnd' : ks.Nodup := (List.nodup_cons.mp hnd).2
    have hfibers : ∀ j ∈ ks,
        ((ts.filter (fun r => key r = j)).map f).sum
          = (((ts.filter (fun r => !(decide (key r = k)))).filter
              (fun r => key r = j)).map f).sum := by
      intro j hj
      have hjk : j ≠ k := fun h => hk_not (h ▸ hj)
      rw [filter_key_of_ne key k j hjk]
    have hcov' : ∀ t ∈ ts.filter (fun r => !(decide (key r = k))), key t ∈ ks := by
      intro t ht
      rcases List.mem_filter.mp ht with ⟨htl, hne⟩
      have hne2 : ¬ key t = k := by simpa using hne
      rcases hcov t htl with hmem
      rcases List.mem_cons.mp hmem with h | h
      · exact absurd h hne2
      · exact h
    have hmap : (ks.map (fun j => ((ts.filter (fun r => key r = j)).map f).sum))
        = ks.map (fun j => (((ts.filter (fun r => !(decide (key r = k)))).filter
            (fun r => key r = j)).map f).sum) :=
      List.map_congr_left hfibers
    simp only [List.map_cons, List.sum_cons]
    rw [hmap, ih (ts.filter (fun r => !(decide (key r = k)))) hnd' hcov']
    exact sum_filter_split f (fun r => decide (key r = k)) ts

/-- Length as the sum of mapped ones. -/
lemma length_eq_sum_ones : ∀ l : List Row, (l.map (fun _ => (1 : ℕ))).sum = l.length := by
  intro l
  induction l with
  | nil => rfl
  | cons t l ih => simp [ih, Nat.add_comm]

/-- Counting over the fibers of a duplicate-free covering key list recovers
the length of the whole list. -/
lemma count_fiberwise {K : Type} [DecidableEq K]
    (key : Row → K) (ks : List K) (ts : List Row)
    (hnd : ks.Nodup) (hcov : ∀ t ∈ ts, key t ∈ ks) :
    (ks.map (fun k => (ts.filter (fun r => key r = k)).length)).sum = ts.length := by
  have h : (fun k => (ts.filter (fun r => key r = k)).length)
      = fun k => ((ts.filter (fun r => key r = k)).map (fun _ => (1 : ℕ))).sum :=
    funext (fun k => (length_eq_sum_ones _).symm)
  rw [h, sum_fiberwise key (fun _ => (1 : ℕ)) ks ts hnd hcov, length_eq_sum_ones]

/-- Insertion keeps the list a permutation of pushing in front. -/
lemma insertKeyDesc_perm (k : Nat × Nat) :
    ∀ l : List (Nat × Nat), (insertKeyDesc k l).Perm (k :: l) := by
  intro l
  induction l with
  | nil => exact List.Perm.refl _
  | cons j rest ih =>
    by_cases h : keyDescLe k j = true
    · simp [insertKeyDesc, h]
    · have h2 : keyDescLe k j = false := by simpa using h
      simp only [insertKeyDesc, h2, ite_false, Bool.false_eq_true]
      exact (ih.cons j).trans (List.Perm.swap k j rest)

/-- The key sort permutes its input. -/
lemma sortKeysDesc_perm : ∀ l : List (Nat × Nat), (sortKeysDesc l).Perm l := by
  intro l
  induction l with
  | nil => exact List.Perm.refl _
  | cons k rest ih => exact (insertKeyDesc_perm k (sortKeysDesc rest)).trans (ih.cons k)

/-- Every trade key occurs among the sorted distinct keys of the aggregation. -/
lemma keyOf_mem_sorted (ts : List Row) (t : Row) (ht : t ∈ ts) :
    keyOf t ∈ sortKeysDesc (weeklyKeys ts) := by
  have h1 : keyOf t ∈ weeklyKeys ts :=
    List.mem_dedup.mpr (List.mem_map_of_mem keyOf ht)
  exact ((sortKeysDesc_perm (weeklyKeys ts)).mem_iff).mpr h1

/-- Bucket counts over the sorted distinct keys sum to the set size. -/
lemma weekly_stats_count_sum (ts : List Row) :
    ((weekly_stats ts).map (fun b => b.tradeCount)).sum = ts.length := by
  unfold weekly_stats
  rw [List.map_map]
  rw [List.Perm.sum_eq ((sortKeysDesc_perm (weeklyKeys ts)).map _)]
  exact count_fiberwise keyOf (weeklyKeys ts) ts (List.nodup_dedup _)
    (fun t ht => List.mem_dedup.mpr (List.mem_map_of_mem keyOf ht))

/-- Bucket profit sums over the sorted distinct keys add up to the total
net profit of the set. -/
lemma weekly_stats_profit_sum (ts : List Row) :
    ((weekly_stats ts).map (fun b => b.weeklyProfit)).sum = (ts.map netProfit).sum := by
  unfold weekly_stats
  rw [List.map_map]
  rw [List.Perm.sum_eq ((sortKeysDesc_perm (weeklyKeys ts)).map _)]
  exact sum_fiberwise keyOf netProfit (weeklyKeys ts) ts (List.nodup_dedup _)
    (fun t ht => List.mem_dedup.mpr (List.mem_map_of_mem keyOf ht))

/-- Bucket keys of the aggregation carry no duplicates. -/
lemma weekly_stats_keys_nodup (ts : List Row) :
    ((weekly_stats ts).map (fun b => (b.year, b.week))).Nodup := by
  unfold weekly_stats
  rw [List.map_map]
  have hid : ((fun b : WeeklyRow => (b.year, b.week)) ∘ fun k : Nat × Nat =>
      ({ year := k.1, week := k.2,
         tradeCount := (ts.filter (fun r => keyOf r = k)).length,
         weeklyProfit := ((ts.filter (fun r => keyOf r = k)).map netProfit).sum } : WeeklyRow))
      = id := by
    funext k
    exact Prod.mk.eta
  rw [hid, List.map_id]
  exact ((sortKeysDesc_perm (weeklyKeys ts)).nodup_iff).mpr (List.nodup_dedup _)

/-- The bucket built on a trade's key belongs to the aggregation output. -/
lemma mem_weekly_stats_of_mem (ts : List Row) (t : Row) (ht : t ∈ ts) :
    ({ year := (keyOf t).1, week := (keyOf t).2,
       tradeCount := (ts.filter (fun r => keyOf r = keyOf t)).length,
       weeklyProfit := ((ts.filter (fun r => keyOf r = keyOf t)).map netProfit).sum }
      : WeeklyRow) ∈ weekly_stats ts := by
  unfold weekly_stats
  exact List.mem_map_of_mem _ (keyOf_mem_sorted ts t ht)

/-! ### Claim theorems -/

/-- Trade dated 2025-12-29, used as the concrete December-edge input. -/
def dec29Row : Row :=
  { symbol := "EURUSD", profit := some 10, commission := some 0,
    updateTime := some ⟨2025, 12, 29⟩ }

/-- Claim C1, counterexample: the trade dated 2025-12-29 falls in ISO week 1 of
ISO year 2026, but the aggregator keys it `(2025, 1)` — `.dt.year` is the
Gregorian calendar year, so the key disagrees with the claimed
(ISO year, ISO week) pair, and the bucket lands under year 2025. -/
theorem weekly_key_not_iso_year_cex :
    isoYear (dateOf dec29Row) = 2026 ∧ isoWeek (dateOf dec29Row) = 1 ∧
    keyOf dec29Row = (2025, 1) ∧ keyOf dec29Row ≠ specKeyOf dec29Row ∧
    (weekly_stats [dec29Row]).map (fun b => (b.year, b.week)) = [(2025, 1)] ∧
    (weekly_stats [dec29Row]).map (fun b => b.tradeCount) = [1] := by
  decide

/-- Claim C1, amended: the Weekly Aggregator derives the grouping key from
updateTime as (Gregorian calendar year, ISO-8601 week number) — the year
component is the plain calendar year, not the ISO week-year — and every trade
of the set has a bucket carrying exactly that key, aggregating the trades that
share it. -/
theorem weekly_key_is_calendar_year_iso_week (ts : List Row) (t : Row) (ht : t ∈ ts) :
    ∃ b ∈ weekly_stats ts,
      b.year = (dateOf t).year ∧ b.week = isoWeek (dateOf t) ∧
      b.tradeCount = (ts.filter (fun r => keyOf r = keyOf t)).length ∧
      b.weeklyProfit = ((ts.filter (fun r => keyOf r = keyOf t)).map netProfit).sum :=
  ⟨_, mem_weekly_stats_of_mem ts t ht, rfl, rfl, rfl, rfl⟩

/-- Witness for the amended C1 at the concrete December-edge trade. -/
theorem weekly_key_is_calendar_year_iso_week_witness :
    dec29Row ∈ [dec29Row] ∧
    ∃ b ∈ weekly_stats [dec29Row],
      b.year = (dateOf dec29Row).year ∧ b.week = isoWeek (dateOf dec29Row) ∧
      b.tradeCount = (([dec29Row] : List Row).filter (fun r => keyOf r = keyOf dec29Row)).length ∧
      b.weeklyProfit
        = ((([dec29Row] : List Row).filter (fun r => keyOf r = keyOf dec29Row)).map netProfit).sum :=
  ⟨List.mem_singleton.mpr rfl,
   weekly_key_is_calendar_year_iso_week [dec29Row] dec29Row (List.mem_singleton.mpr rfl)⟩

/-- Scenario-A style trade set: three trades in the same ISO week. -/
def threeTradeRows : List Row :=
  [ { symbol := "EURUSD", profit := some 100, commission := some 0,
      updateTime := some ⟨2025, 1, 6⟩ },
    { symbol := "EURUSD", profit := some (-50), commission := some 0,
      updateTime := some ⟨2025, 1, 7⟩ },
    { symbol := "EURUSD", profit := some 20, commission := some 0,
      updateTime := some ⟨2025, 1, 8⟩ } ]

/-- Claim C2: for every non-empty TradeSet the weekly buckets partition it:
bucket trade counts sum to `total_trades`, bucket profit sums add up to the
total net profit, the bucket keys carry no duplicates (no overlap), and every
trade falls under the key of some bucket (exhaustiveness). -/
theorem weekly_buckets_partition (ts : List Row) (hne : ts ≠ []) :
    ((weekly_stats ts).map (fun b => b.tradeCount)).sum = total_trades ts ∧
    ((weekly_stats ts).map (fun b => b.weeklyProfit)).sum = (ts.map netProfit).sum ∧
    ((weekly_stats ts).map (fun b => (b.year, b.week))).Nodup ∧
    ∀ t ∈ ts, ∃ b ∈ weekly_stats ts, keyOf t = (b.year, b.week) := by
  refine ⟨weekly_stats_count_sum ts, weekly_stats_profit_sum ts,
    weekly_stats_keys_nodup ts, ?_⟩
  intro t ht
  exact ⟨_, mem_weekly_stats_of_mem ts t ht, Prod.mk.eta.symm⟩

/-- Witness for C2 at the concrete three-trade set. -/
theorem weekly_buckets_partition_witness :
    threeTradeRows ≠ [] ∧
    (((weekly_stats threeTradeRows).map (fun b => b.tradeCount)).sum
        = total_trades threeTradeRows ∧
     ((weekly_stats threeTradeRows).map (fun b => b.weeklyProfit)).sum
        = (threeTradeRows.map netProfit).sum ∧
     ((weekly_stats threeTradeRows).map (fun b => (b.year, b.week))).Nodup ∧
     ∀ t ∈ threeTradeRows, ∃ b ∈ weekly_stats threeTradeRows, keyOf t = (b.year, b.week)) :=
  ⟨List.cons_ne_nil _ _, weekly_buckets_partition threeTradeRows (List.cons_ne_nil _ _)⟩

/-- Claim C3: on a non-empty TradeSet the profit factor is the infinite value
exactly when `gross_loss` is zero; any finite value it takes is
`gross_profit / gross_loss`; and an all-wins set forces the infinite value. -/
theorem profit_factor_inf_iff (ts : List Row) (hne : ts ≠ []) :
    (profit_factor ts = none ↔ gross_loss ts = 0) ∧
    (∀ q, profit_factor ts = some q → q = gross_profit ts / gross_loss ts) ∧
    ((∀ r ∈ ts, 0 < netProfit r) → profit_factor ts = none) := by
  refine ⟨?_, ?_, ?_⟩
  · by_cases h : gross_loss ts = 0 <;> simp [profit_factor, h]
  · intro q hq
    by_cases h : gross_loss ts = 0
    · simp [profit_factor, h] at hq
    · simp only [profit_factor, h, ne_eq, not_false_eq_true, if_true, ite_true,
        Option.some.injEq] at hq
      exact hq.symm
  · intro hw
    have hl : losses ts = [] := by
      refine List.filter_eq_nil_iff.mpr ?_
      intro r hr
      simp [not_le.mpr (hw r hr)]
    have hgl : gross_loss ts = 0 := by simp [gross_loss, hl]
    simp [profit_factor, hgl]

/-- Witness for C3 at the concrete three-trade set. -/
theorem profit_factor_inf_iff_witness :
    threeTradeRows ≠ [] ∧
    ((profit_factor threeTradeRows = none ↔ gross_loss threeTradeRows = 0) ∧
     (∀ q, profit_factor threeTradeRows = some q
        → q = gross_profit threeTradeRows / gross_loss threeTradeRows) ∧
     ((∀ r ∈ threeTradeRows, 0 < netProfit r) → profit_factor threeTradeRows = none)) :=
  ⟨List.cons_ne_nil _ _, profit_factor_inf_iff threeTradeRows (List.cons_ne_nil _ _)⟩

/-- Claim C4: when every retained trade is a win (so `gross_loss = 0` and the
profit factor is the infinite value), the renderer formats it as the string
"inf" rather than failing, and the HTML report is still produced and written. -/
theorem all_wins_renders_inf (input_csv output_html : String) (df : List Row)
    (hne : filterRows df ≠ []) (hdates : datesOk (filterRows df) = true)
    (hw : ∀ r ∈ filterRows df, 0 < netProfit r) :
    fmtPF (profit_factor (filterRows df)) = "inf" ∧
    (generate_analysis input_csv output_html (.table df)).written
      = some (buildHtml input_csv (filterRows df)) := by
  have hl : losses (filterRows df) = [] := by
    refine List.filter_eq_nil_iff.mpr ?_
    intro r hr
    simp [not_le.mpr (hw r hr)]
  have hgl : gross_loss (filterRows df) = 0 := by simp [gross_loss, hl]
  have hpf : profit_factor (filterRows df) = none := by simp [profit_factor, hgl]
  refine ⟨by rw [hpf]; rfl, ?_⟩
  simp [generate_analysis, hne, hdates]

/-- Single winning trade used as the concrete all-wins input. -/
def winRow : Row :=
  { symbol := "EURUSD", profit := some 10, commission := some 0,
    updateTime := some ⟨2025, 1, 6⟩ }

/-- Table holding only the winning trade. -/
def allWinsDf : List Row := [winRow]

/-- Witness for C4 at the concrete all-wins table. -/
theorem all_wins_renders_inf_witness :
    (filterRows allWinsDf ≠ [] ∧ datesOk (filterRows allWinsDf) = true ∧
      ∀ r ∈ filterRows allWinsDf, 0 < netProfit r) ∧
    (fmtPF (profit_factor (filterRows allWinsDf)) = "inf" ∧
     (generate_analysis "trades.csv" "analysis_report.html" (.table allWinsDf)).written
        = some (buildHtml "trades.csv" (filterRows allWinsDf))) := by
  have hfil : filterRows allWinsDf = [winRow] := by decide
  have hw : ∀ r ∈ filterRows allWinsDf, 0 < netProfit r := by
    intro r hr
    rw [hfil] at hr
    rcases List.mem_singleton.mp hr with rfl
    show (0 : ℚ) < netProfit winRow
    norm_num [netProfit, winRow]
  exact ⟨⟨by decide, by decide, hw⟩,
    all_wins_renders_inf "trades.csv" "analysis_report.html" allWinsDf (by decide) (by decide) hw⟩

/-- Claim C5: a row whose Symbol is exactly "XAGUSD", or whose Profit is null,
never belongs to the filtered TradeSet, whatever its other fields hold. -/
theorem excluded_rows_not_in_tradeset (df : List Row) (r : Row)
    (h : r.symbol = "XAGUSD" ∨ r.profit = none) : r ∉ filterRows df := by
  intro hr
  rcases List.mem_filter.mp hr with ⟨hr1, hsym⟩
  rcases List.mem_filter.mp hr1 with ⟨-, hprof⟩
  rcases h with h | h
  · rw [h] at hsym
    simp at hsym
  · rw [h] at hprof
    simp at hprof

/-- Excluded-symbol row with a perfectly valid profit. -/
def xagRow : Row :=
  { symbol := "XAGUSD", profit := some 7, commission := some 0,
    updateTime := some ⟨2025, 1, 6⟩ }

/-- Witness for C5: the "XAGUSD" row is absent from the filter of a table
containing it. -/
theorem excluded_rows_not_in_tradeset_witness :
    (xagRow.symbol = "XAGUSD" ∨ xagRow.profit = none) ∧
    xagRow ∉ filterRows [xagRow] :=
  ⟨Or.inl rfl, excluded_rows_not_in_tradeset [xagRow] xagRow (Or.inl rfl)⟩

/-- Claim C6: the Filter stage is idempotent — filtering an already-filtered
TradeSet returns the identical list, same rows in the same order. -/
theorem filter_idempotent (df : List Row) :
    filterRows (filterRows df) = filterRows df := by
  have h1 : (filterRows df).filter (fun r => r.profit.isSome) = filterRows df := by
    refine List.filter_eq_self.mpr ?_
    intro r hr
    exact (List.mem_filter.mp (List.mem_filter.mp hr).1).2
  have h2 : (filterRows df).filter (fun r => r.symbol ≠ "XAGUSD") = filterRows df := by
    refine List.filter_eq_self.mpr ?_
    intro r hr
    exact (List.mem_filter.mp hr).2
  show ((filterRows df).filter (fun r => r.profit.isSome)).filter
      (fun r => r.symbol ≠ "XAGUSD") = filterRows df
  rw [h1, h2]

/-- Claim C7: a table whose filtered TradeSet is empty makes the pipeline halt
with the "no valid trade data" message and write no output file. -/
theorem empty_filter_halts (input_csv output_html : String) (df : List Row)
    (h : filterRows df = []) :
    generate_analysis input_csv output_html (.table df)
      = { message := "No valid trade data found after filtering.", written := none } := by
  simp [generate_analysis, h]

/-- Table holding only the excluded-symbol row, so the filter empties it. -/
def xagOnlyDf : List Row :=
  [{ symbol := "XAGUSD", profit := some 5, commission := some 0,
     updateTime := some ⟨2025, 1, 6⟩ }]

/-- Witness for C7 at the concrete all-excluded table. -/
theorem empty_filter_halts_witness :
    filterRows xagOnlyDf = [] ∧
    generate_analysis "trades.csv" "analysis_report.html" (.table xagOnlyDf)
      = { message := "No valid trade data found after filtering.", written := none } :=
  ⟨by decide, empty_filter_halts "trades.csv" "analysis_report.html" xagOnlyDf (by decide)⟩

/-- Claim C8: every run either fails — with the corresponding human-readable
message as its printed output and no file written (missing input file, read
failure, empty filtered set, unparseable dates) — or succeeds with the full
report written; the run is a total function, so no other outcome (an escaped
exception) exists, and the write happens only on the success branch, after
all computation. -/
theorem errors_reported_no_partial_write (input_csv output_html : String)
    (input : LoadResult) :
    ((generate_analysis input_csv output_html input).written = none ∧
      ((generate_analysis input_csv output_html input).message
          = "Error: File \x27" ++ input_csv ++ "\x27 not found." ∨
       (∃ e, input = .parseError e ∧
          (generate_analysis input_csv output_html input).message
            = "An unexpected error occurred: " ++ e) ∨
       (generate_analysis input_csv output_html input).message
          = "No valid trade data found after filtering." ∨
       (generate_analysis input_csv output_html input).message
          = "An unexpected error occurred: unparseable Update Time")) ∨
    (∃ df, input = .table df ∧ filterRows df ≠ [] ∧ datesOk (filterRows df) = true ∧
      generate_analysis input_csv output_html input =
        { message := "Analysis complete. Dashboard saved to: " ++ output_html,
          written := some (buildHtml input_csv (filterRows df)) }) := by
  cases input with
  | fileMissing => exact Or.inl ⟨rfl, Or.inl rfl⟩
  | parseError e => exact Or.inl ⟨rfl, Or.inr (Or.inl ⟨e, rfl, rfl⟩)⟩
  | table df =>
    by_cases hemp : filterRows df = []
    · refine Or.inl ⟨?_, Or.inr (Or.inr (Or.inl ?_))⟩ <;> simp [generate_analysis, hemp]
    · by_cases hd : datesOk (filterRows df) = true
      · exact Or.inr ⟨df, rfl, hemp, hd, by simp [generate_analysis, hemp, hd]⟩
      · refine Or.inl ⟨?_, Or.inr (Or.inr (Or.inr ?_))⟩ <;>
          simp [generate_analysis, hemp, hd]

/-- Loss-only table for the summary-tag counterexample. -/
def lossOnlyDf : List Row :=
  [{ symbol := "EURUSD", profit := some (-50), commission := some 0,
     updateTime := some ⟨2025, 1, 6⟩ }]

/-- Claim C9, counterexample: on the all-loss table the highest-profit value is
-50, not positive, yet its summary cell still carries the "win" class — the
template hardcodes both classes, so the claimed sign equivalence fails. -/
theorem summary_tag_not_sign_dependent_cex :
    ¬ ((max_profit_class (max_profit lossOnlyDf) = "win")
        ↔ 0 < max_profit lossOnlyDf) := by
  have h : max_profit lossOnlyDf = -50 := by
    show ((-50 : ℚ)) + 0 = -50
    norm_num
  intro hiff
  have h2 := hiff.mp rfl
  rw [h] at h2
  norm_num at h2

/-- Claim C9, amended: the classes in the summary table are fixed by the
template — the highest-profit cell always carries "win" and the highest-loss
cell always "loss", independent of the values rendered in them. -/
theorem summary_tags_hardcoded (ts : List Row) :
    max_profit_class (max_profit ts) = "win" ∧
    max_loss_class (max_loss ts) = "loss" ∧
    summary_profit_row (max_profit ts)
      = "<tr><td>Highest Profitable Trade</td><td class=\"win\">$"
          ++ fmt2 (max_profit ts) ++ "</td></tr>" ∧
    summary_loss_row (max_loss ts)
      = "<tr><td>Highest Loss</td><td class=\"loss\">$"
          ++ fmt2 (max_loss ts) ++ "</td></tr>" :=
  ⟨rfl, rfl, rfl, rfl⟩

/-- Claim C10: a weekly bucket whose net P&L is exactly zero is rendered with
the "win" class on its calendar card (the renderer tests `Weekly_Profit >= 0`),
even though the metric calculator files a zero-net-profit trade under
`losses`. -/
theorem zero_week_tagged_win (ts : List Row) (b : WeeklyRow)
    (hb : b ∈ weekly_stats ts) (hz : b.weeklyProfit = 0) :
    weekBoxClass b.weeklyProfit = "win" ∧
    weekBox b = "<div class=\"week-box\"><strong>Week " ++ toString b.week ++ ", "
      ++ toString b.year ++ "</strong><br>Trades: " ++ toString b.tradeCount
      ++ "<br>Net P&L: <span class=\"" ++ "win" ++ "\">$" ++ fmt2 b.weeklyProfit
      ++ "</span></div>" ∧
    (∀ r ∈ ts, netProfit r = 0 → r ∈ losses ts) := by
  have hc : weekBoxClass b.weeklyProfit = "win" := by
    rw [hz]
    norm_num [weekBoxClass]
  refine ⟨hc, ?_, ?_⟩
  · unfold weekBox
    rw [hc]
  · intro r hr h0
    refine List.mem_filter.mpr ⟨hr, ?_⟩
    simp [h0]

/-- First trade of the zero-sum week. -/
def zwRow1 : Row :=
  { symbol := "EURUSD", profit := some 50, commission := some 0,
    updateTime := some ⟨2025, 1, 6⟩ }

/-- Second trade of the zero-sum week, cancelling the first. -/
def zwRow2 : Row :=
  { symbol := "GBPUSD", profit := some (-50), commission := some 0,
    updateTime := some ⟨2025, 1, 7⟩ }

/-- Two same-week trades whose net profits cancel to zero. -/
def zeroWeekDf : List Row := [zwRow1, zwRow2]

/-- The bucket produced for the zero-sum week. -/
def zwBucket : WeeklyRow :=
  { year := (keyOf zwRow1).1, week := (keyOf zwRow1).2,
    tradeCount := (zeroWeekDf.filter (fun r => keyOf r = keyOf zwRow1)).length,
    weeklyProfit := ((zeroWeekDf.filter (fun r => keyOf r = keyOf zwRow1)).map netProfit).sum }

/-- Witness for C10 at the concrete zero-sum week. -/
theorem zero_week_tagged_win_witness :
    (zwBucket ∈ weekly_stats zeroWeekDf ∧ zwBucket.weeklyProfit = 0) ∧
    (weekBoxClass zwBucket.weeklyProfit = "win" ∧
     weekBox zwBucket = "<div class=\"week-box\"><strong>Week "
       ++ toString zwBucket.week ++ ", " ++ toString zwBucket.year
       ++ "</strong><br>Trades: " ++ toString zwBucket.tradeCount
       ++ "<br>Net P&L: <span class=\"" ++ "win" ++ "\">$" ++ fmt2 zwBucket.weeklyProfit
       ++ "</span></div>" ∧
     (∀ r ∈ zeroWeekDf, netProfit r = 0 → r ∈ losses zeroWeekDf)) := by
  have hb : zwBucket ∈ weekly_stats zeroWeekDf :=
    mem_weekly_stats_of_mem zeroWeekDf zwRow1 (List.mem_cons_self _ _)
  have hfil : zeroWeekDf.filter (fun r => keyOf r = keyOf zwRow1) = [zwRow1, zwRow2] := by
    decide
  have hz : zwBucket.weeklyProfit = 0 := by
    show ((zeroWeekDf.filter (fun r => keyOf r = keyOf zwRow1)).map netProfit).sum = 0
    rw [hfil]
    show netProfit zwRow1 + (netProfit zwRow2 + 0) = 0
    norm_num [netProfit, zwRow1, zwRow2]
  exact ⟨⟨hb, hz⟩, zero_week_tagged_win zeroWeekDf zwBucket hb hz⟩
